import Mathlib

/-!
Verification of the blog-record lifecycle orchestrator (blogController:
create / getById / update / delete) against its natural-language
specification.

Modelling conventions:
* JavaScript strings are Lean `String`s; `String.split(sep)` for a
  one-character separator is modelled by `jsSplit`, which mirrors the
  ECMAScript semantics (splitting "" yields [""], a leading/trailing
  separator yields an empty segment).
* Each controller operation is a pure function.  The outcomes of the
  external calls the operation makes (Cloudinary upload/destroy, the
  fallible document-store calls wrapped in try/catch in the source) are
  passed in as explicit `Except`/`Option Err` oracle values; the
  operation returns its HTTP-level result, the resulting document store,
  the ordered list of asset-store calls it issued, and the list of
  errors it swallowed and logged (console.error).
* `Blog.findOne`, `Blog.updateOne`, `Blog.deleteOne` act on the first
  record whose `_id` matches (MongoDB single-document semantics);
  `Comment.deleteMany` removes every matching comment.
-/

abbrev Err := String

/-- The Joi pattern `/^[0-9a-fA-F]{24}$/` used to validate ids. -/
def isHex24 (s : String) : Bool :=
  s.length == 24 && s.toList.all fun c =>
    c.isDigit || (('a' ≤ c) && (c ≤ 'f')) || (('A' ≤ c) && (c ≤ 'F'))

/-- ECMAScript `String.prototype.split` with a single-character separator,
at the character-list level: `splitOnChar sep l` never returns `[]`; the
empty list splits to `[[]]`. -/
def splitOnChar (sep : Char) : List Char → List (List Char)
  | [] => [[]]
  | c :: cs =>
    let r := splitOnChar sep cs
    if c = sep then [] :: r
    else (c :: r.headD []) :: r.tail

/-- ECMAScript `s.split(sep)` for a one-character separator `sep`. -/
def jsSplit (sep : Char) (s : String) : List String :=
  (splitOnChar sep s.toList).map List.asString

/-- The public-id extraction written inline in `blogController.update`
(lines 173-182 of the source): split the photo URL on "/", pop the last
segment, pop once more into an unused variable, and take component 0 of
the last segment split on ".". -/
def update_extractPublicId (photoUrl : String) : String :=
  let urlParts := jsSplit '/' photoUrl
  let publicIdWithExtension := urlParts.getLastD ""
  let urlParts1 := urlParts.dropLast
  let _versionedPublicId := urlParts1.getLastD ""
  (jsSplit '.' publicIdWithExtension).headD ""

/-- The public-id extraction written inline in `blogController.delete`
(lines 254-256 of the source): split the photo URL on "/", pop the last
segment, and take component 0 of that segment split on ".". -/
def delete_extractPublicId (photoUrl : String) : String :=
  let urlParts := jsSplit '/' photoUrl
  let publicIdWithExtension := urlParts.getLastD ""
  (jsSplit '.' publicIdWithExtension).headD ""

/-- The last path segment of an access URL (the spec codec's first step). -/
def specLastSegment (url : String) : String :=
  (jsSplit '/' url).getLastD ""

/-- A segment truncated at its first dot: everything from the first '.'
on is dropped.  This is what `split(".")[0]` computes; it coincides with
"strip the file-extension suffix" only when the segment has at most one
dot. -/
def specBeforeFirstDot (s : String) : String :=
  (s.toList.takeWhile fun c => !(c == '.')).asString

/-! ## Data model -/

structure BlogPost where
  _id : String
  title : String
  author : String
  content : String
  photoPath : String
deriving Repr, DecidableEq

structure Comment where
  _id : String
  blog : String
deriving Repr, DecidableEq

structure Store where
  blogs : List BlogPost
  comments : List Comment
deriving Repr, DecidableEq

/-- A call issued to the asset store (Cloudinary), in issue order. -/
inductive AssetCall where
  | upload (photo : String)
  | destroy (publicId : String)
deriving Repr, DecidableEq

/-- `Blog.findOne({ _id: id })`: first record with a matching id. -/
def findBlog (st : Store) (id : String) : Option BlogPost :=
  st.blogs.find? fun b => b._id == id

/-- Replace the first element satisfying `p` by its image under `f`
(MongoDB `updateOne`). -/
def updateFirst {α : Type} (p : α → Bool) (f : α → α) : List α → List α
  | [] => []
  | x :: xs => if p x then f x :: xs else x :: updateFirst p f xs

/-- Remove the first element satisfying `p` (MongoDB `deleteOne`). -/
def deleteFirst {α : Type} (p : α → Bool) : List α → List α
  | [] => []
  | x :: xs => if p x then xs else x :: deleteFirst p xs

/-! ## Operations -/

inductive CreateRes where
  | validationErr
  | nextErr (e : Err)
  | created (b : BlogPost)
deriving Repr, DecidableEq

structure CreateOut where
  res : CreateRes
  store : Store
  calls : List AssetCall
deriving Repr, DecidableEq

/-- The Joi schema of `blogController.create`: title, author, content and
photo all required non-empty strings, author matching the id pattern. -/
def createValid (title author content photo : String) : Bool :=
  (title != "") && isHex24 author && (content != "") && (photo != "")

/-- `blogController.create`.  `uploadOut` is the outcome of
`cloudinary.uploader.upload(photo)`; `saveErr` the outcome of
`newBlog.save()`; `newId` the identity the store assigns on insert. -/
def create (uploadOut : Except Err String) (saveErr : Option Err)
    (st : Store) (newId title author content photo : String) : CreateOut :=
  if createValid title author content photo then
    match uploadOut with
    | .error e => ⟨.nextErr e, st, [.upload photo]⟩
    | .ok url =>
      match saveErr with
      | some e => ⟨.nextErr e, st, [.upload photo]⟩
      | none =>
        let b : BlogPost :=
          { _id := newId, title := title, author := author,
            content := content, photoPath := url }
        ⟨.created b, { st with blogs := st.blogs ++ [b] }, [.upload photo]⟩
  else ⟨.validationErr, st, []⟩

inductive UpdateRes where
  | validationErr
  | notFound
  | nextErr (e : Err)
  | updated
deriving Repr, DecidableEq

structure UpdateOut where
  res : UpdateRes
  store : Store
  calls : List AssetCall
  logs : List Err
deriving Repr, DecidableEq

/-- The Joi schema of `blogController.update`: title, content, author,
blogId required (author and blogId matching the id pattern); photo
optional, but when present it must be a non-empty string. -/
def updateValid (title content author blogId : String)
    (photo : Option String) : Bool :=
  (title != "") && (content != "") && isHex24 author && isHex24 blogId &&
    (match photo with | none => true | some p => p != "")

/-- The final `Blog.updateOne({_id: blogId}, {title, content, photoPath})`
step of `blogController.update` (it does not write the author field). -/
def dbReplace (updateErr : Option Err) (st : Store)
    (blogId title content newPhotoPath : String)
    (calls : List AssetCall) (logs : List Err) : UpdateOut :=
  match updateErr with
  | some e => ⟨.nextErr e, st, calls, logs⟩
  | none =>
    let blogs1 :=
      updateFirst (fun b => b._id == blogId)
        (fun b => { b with title := title, content := content,
                           photoPath := newPhotoPath }) st.blogs
    ⟨.updated, { st with blogs := blogs1 }, calls, logs⟩

/-- `blogController.update`.  `findErr` is a thrown `Blog.findOne` error,
`destroyOut` the outcome of `cloudinary.uploader.destroy` (its failure is
caught, logged and swallowed), `uploadOut` the outcome of
`cloudinary.uploader.upload`, `updateErr` a thrown `Blog.updateOne`
error. -/
def update (findErr : Option Err) (destroyOut : Except Err Unit)
    (uploadOut : Except Err String) (updateErr : Option Err) (st : Store)
    (title content author blogId : String) (photo : Option String) :
    UpdateOut :=
  if updateValid title content author blogId photo then
    match findErr with
    | some e => ⟨.nextErr e, st, [], []⟩
    | none =>
      match findBlog st blogId with
      | none => ⟨.notFound, st, [], []⟩
      | some blog =>
        let hasPhoto : Option String := match photo with
          | some p => if p == "" then none else some p
          | none => none
        match hasPhoto with
        | none => dbReplace updateErr st blogId title content blog.photoPath [] []
        | some p =>
          let destroyed : List AssetCall × List Err :=
            if blog.photoPath != "" then
              ([.destroy (update_extractPublicId blog.photoPath)],
               match destroyOut with | .error e => [e] | .ok _ => [])
            else ([], [])
          match uploadOut with
          | .error e => ⟨.nextErr e, st, destroyed.1 ++ [.upload p], destroyed.2⟩
          | .ok url =>
            dbReplace updateErr st blogId title content url
              (destroyed.1 ++ [.upload p]) destroyed.2
  else ⟨.validationErr, st, [], []⟩

inductive DeleteRes where
  | validationErr
  | notFound
  | nextErr (e : Err)
  | deleted
deriving Repr, DecidableEq

structure DeleteOut where
  res : DeleteRes
  store : Store
  calls : List AssetCall
  logs : List Err
deriving Repr, DecidableEq

/-- `blogController.delete`.  `findErr` is a thrown `Blog.findOne` error;
`destroyOut` the outcome `cloudinary.uploader.destroy` reports to its
callback (an error there is logged inside the callback and never thrown);
`delBlogErr` a thrown `Blog.deleteOne` error; `delCommentsErr` a thrown
`Comment.deleteMany` error. -/
def deleteOp (findErr : Option Err) (destroyOut : Except Err Unit)
    (delBlogErr delCommentsErr : Option Err) (st : Store) (id : String) :
    DeleteOut :=
  if isHex24 id then
    match findErr with
    | some e => ⟨.nextErr e, st, [], []⟩
    | none =>
      match findBlog st id with
      | none => ⟨.notFound, st, [], []⟩
      | some blog =>
        let publicId := delete_extractPublicId blog.photoPath
        let logs : List Err :=
          match destroyOut with | .error e => [e] | .ok _ => []
        match delBlogErr with
        | some e => ⟨.nextErr e, st, [.destroy publicId], logs⟩
        | none =>
          let st1 : Store :=
            { st with blogs := deleteFirst (fun b => b._id == id) st.blogs }
          match delCommentsErr with
          | some e => ⟨.nextErr e, st1, [.destroy publicId], logs⟩
          | none =>
            ⟨.deleted,
             { st1 with comments := st1.comments.filter fun c => c.blog != id },
             [.destroy publicId], logs⟩
  else ⟨.validationErr, st, [], []⟩

inductive GetByIdRes (D : Type) where
  | validationErr
  | nextErr (e : Err)
  | okDto (d : D)
  | projFail (e : Err)
deriving Repr, DecidableEq

/-- `blogController.getById`.  After a successful `Blog.findOne` the code
unconditionally builds `new BlogDetailsDTO(blog)` and answers 200 — there
is no not-found branch, so the detail projection `proj` (kept abstract:
the DTO class is outside the shown sources) receives the lookup result
even when it is null; a throw inside the projection escapes the handler
(`projFail`), it is not routed through `next`. -/
def getById {D : Type} (findErr : Option Err)
    (proj : Option BlogPost → Except Err D) (st : Store) (id : String) :
    GetByIdRes D :=
  if isHex24 id then
    match findErr with
    | some e => .nextErr e
    | none =>
      match proj (findBlog st id) with
      | .ok d => .okDto d
      | .error e => .projFail e
  else .validationErr

/-! ## Codec lemmas -/

theorem splitOnChar_ne_nil (sep : Char) (l : List Char) :
    splitOnChar sep l ≠ [] := by
  cases l with
  | nil => simp [splitOnChar]
  | cons c cs =>
    simp only [splitOnChar]
    split <;> simp

theorem splitOnChar_headD (sep : Char) (l : List Char) :
    (splitOnChar sep l).headD [] = l.takeWhile fun c => !(c == sep) := by
  induction l with
  | nil => rfl
  | cons c cs ih =>
    cases h : splitOnChar sep cs with
    | nil => exact absurd h (splitOnChar_ne_nil sep cs)
    | cons a t =>
      rw [h] at ih
      simp only [List.headD_cons] at ih
      by_cases hc : c = sep
      · simp [splitOnChar, hc, h]
      · simp [splitOnChar, hc, h, List.takeWhile_cons, ih]

theorem jsSplit_headD (sep : Char) (s : String) :
    (jsSplit sep s).headD "" =
      (s.toList.takeWhile fun c => !(c == sep)).asString := by
  unfold jsSplit
  cases h : splitOnChar sep s.toList with
  | nil => exact absurd h (splitOnChar_ne_nil sep s.toList)
  | cons a t =>
    have ha := splitOnChar_headD sep s.toList
    rw [h] at ha
    simp only [List.headD_cons] at ha
    simp [ha]

/-! ## Claims about the identifier codec -/

/-- Claim C10: the asset-identifier extraction inlined in the Update
operation and the one inlined in the Delete operation compute the same
identifier on every access URL (the extra `urlParts.pop()` in Update only
fills an unused variable). -/
theorem C10_update_delete_codecs_agree (url : String) :
    update_extractPublicId url = delete_extractPublicId url := rfl

/-- Claim C3 counterexample: on an access URL whose last segment is
"abc.v2.jpg" the codec yields "abc", not the claimed "abc.v2" (the code
takes `split(".")[0]`, truncating at the FIRST dot rather than removing
only the file-extension suffix). -/
theorem C3_counterexample :
    delete_extractPublicId
        "https://res.cloudinary.com/demo/image/upload/v1/abc.v2.jpg"
      = "abc" ∧ ("abc" : String) ≠ "abc.v2" :=
  ⟨by decide, by decide⟩

/-- Claim C3 (amended): for every access URL the codec splits the URL into
path segments and takes the last segment truncated at its first dot —
everything from the first '.' on is dropped, so a last segment
"abc.v2.jpg" yields "abc". -/
theorem C3_amended_last_segment_before_first_dot (url : String) :
    delete_extractPublicId url = specBeforeFirstDot (specLastSegment url) := by
  unfold delete_extractPublicId specBeforeFirstDot specLastSegment
  exact jsSplit_headD '.' _

/-! ## Claims about Create -/

/-- Claim C5: in every Create call in which the photo upload fails, the
operation aborts surfacing the upload error, the store is unchanged (no
blog record is inserted, and nothing was persisted before the upload),
and the upload itself was the only asset-store call. -/
theorem C5_create_upload_failure (saveErr : Option Err) (st : Store)
    (newId title author content photo : String) (e : Err)
    (hv : createValid title author content photo = true) :
    create (.error e) saveErr st newId title author content photo
      = ⟨.nextErr e, st, [.upload photo]⟩ := by
  simp [create, hv]

/-- Claim C5 witness. -/
theorem C5_witness :
    createValid "Hello" "507f1f77bcf86cd799439011" "World" "data-img" = true ∧
    create (.error "upload down") none ⟨[], []⟩ "aaaaaaaaaaaaaaaaaaaaaaaa"
        "Hello" "507f1f77bcf86cd799439011" "World" "data-img"
      = ⟨.nextErr "upload down", ⟨[], []⟩, [.upload "data-img"]⟩ :=
  ⟨by decide,
   C5_create_upload_failure none ⟨[], []⟩ "aaaaaaaaaaaaaaaaaaaaaaaa"
     "Hello" "507f1f77bcf86cd799439011" "World" "data-img" "upload down"
     (by decide)⟩

/-- Claim C6: in every Create call in which the photo upload succeeds but
the record insert fails, the insert error is surfaced, the store is
unchanged, and the asset-store trace is exactly the one upload — in
particular no compensating destroy call is issued, so the uploaded asset
is left orphaned. -/
theorem C6_create_insert_failure (st : Store)
    (newId title author content photo url : String) (e : Err)
    (hv : createValid title author content photo = true) :
    create (.ok url) (some e) st newId title author content photo
        = ⟨.nextErr e, st, [.upload photo]⟩ ∧
    ∀ pid, AssetCall.destroy pid ∉
      (create (.ok url) (some e) st newId title author content photo).calls := by
  refine ⟨by simp [create, hv], ?_⟩
  intro pid
  simp [create, hv]

/-- Claim C6 witness. -/
theorem C6_witness :
    createValid "Hello" "507f1f77bcf86cd799439011" "World" "data-img" = true ∧
    create (.ok "http://cdn/x.jpg") (some "db down") ⟨[], []⟩
        "aaaaaaaaaaaaaaaaaaaaaaaa" "Hello" "507f1f77bcf86cd799439011"
        "World" "data-img"
      = ⟨.nextErr "db down", ⟨[], []⟩, [.upload "data-img"]⟩ :=
  ⟨by decide,
   (C6_create_insert_failure ⟨[], []⟩ "aaaaaaaaaaaaaaaaaaaaaaaa" "Hello"
     "507f1f77bcf86cd799439011" "World" "data-img" "http://cdn/x.jpg"
     "db down" (by decide)).1⟩

/-! ## Claims about getById -/

/-- Claim C9: a getById call with a well-formed 24-character hex id that
matches no stored record does not produce a not-found signal — the
handler has no not-found branch — and instead hands the null lookup
result to the detail projection, answering 200 with the projected value
when the projection succeeds and failing inside the projection
otherwise. -/
theorem C9_getById_missing_id_no_not_found {D : Type}
    (proj : Option BlogPost → Except Err D) (st : Store) (id : String)
    (hid : isHex24 id = true) (hnf : findBlog st id = none) :
    getById none proj st id =
      (match proj none with
       | .ok d => GetByIdRes.okDto d
       | .error e => GetByIdRes.projFail e) := by
  simp [getById, hid, hnf]

/-- Claim C9 witness. -/
theorem C9_witness :
    isHex24 "507f1f77bcf86cd799439011" = true ∧
    findBlog ⟨[], []⟩ "507f1f77bcf86cd799439011" = none ∧
    getById none (fun _ => Except.ok "detail-dto") ⟨[], []⟩
        "507f1f77bcf86cd799439011"
      = GetByIdRes.okDto "detail-dto" :=
  ⟨by decide, rfl,
   C9_getById_missing_id_no_not_found (fun _ => Except.ok "detail-dto")
     ⟨[], []⟩ "507f1f77bcf86cd799439011" (by decide) rfl⟩

/-! ## Claims about Update / Delete on a missing id -/

/-- Claim C8: an Update or Delete call whose well-formed blog id matches
no stored record terminates with a not-found signal, leaves the store
unchanged, and issues no asset-store call; an immediately repeated Delete
on the same id produces the same not-found outcome. -/
theorem C8_missing_id_not_found
    (destroyOut destroyOut2 : Except Err Unit) (uploadOut : Except Err String)
    (updateErr delBlogErr delCommentsErr delBlogErr2 delCommentsErr2 : Option Err)
    (st : Store) (title content author id : String) (photo : Option String)
    (hv : updateValid title content author id photo = true)
    (hid : isHex24 id = true)
    (hnf : findBlog st id = none) :
    update none destroyOut uploadOut updateErr st title content author id photo
        = ⟨.notFound, st, [], []⟩ ∧
    deleteOp none destroyOut delBlogErr delCommentsErr st id
        = ⟨.notFound, st, [], []⟩ ∧
    deleteOp none destroyOut2 delBlogErr2 delCommentsErr2
        (deleteOp none destroyOut delBlogErr delCommentsErr st id).store id
        = ⟨.notFound, st, [], []⟩ := by
  have h1 : deleteOp none destroyOut delBlogErr delCommentsErr st id
      = ⟨.notFound, st, [], []⟩ := by
    simp [deleteOp, hid, hnf]
  refine ⟨by simp [update, hv, hnf], h1, ?_⟩
  rw [h1]
  simp [deleteOp, hid, hnf]

/-- Claim C8 witness. -/
theorem C8_witness :
    updateValid "T" "C" "507f1f77bcf86cd799439011"
        "bbbbbbbbbbbbbbbbbbbbbbbb" none = true ∧
    isHex24 "bbbbbbbbbbbbbbbbbbbbbbbb" = true ∧
    findBlog ⟨[], []⟩ "bbbbbbbbbbbbbbbbbbbbbbbb" = none ∧
    update none (.ok ()) (.ok "u") none ⟨[], []⟩ "T" "C"
        "507f1f77bcf86cd799439011" "bbbbbbbbbbbbbbbbbbbbbbbb" none
      = ⟨.notFound, ⟨[], []⟩, [], []⟩ ∧
    deleteOp none (.ok ()) none none ⟨[], []⟩ "bbbbbbbbbbbbbbbbbbbbbbbb"
      = ⟨.notFound, ⟨[], []⟩, [], []⟩ :=
  ⟨by decide, by decide, rfl,
   (C8_missing_id_not_found (.ok ()) (.ok ()) (.ok "u") none none none none
      none ⟨[], []⟩ "T" "C" "507f1f77bcf86cd799439011"
      "bbbbbbbbbbbbbbbbbbbbbbbb" none (by decide) (by decide) rfl).1,
   (C8_missing_id_not_found (.ok ()) (.ok ()) (.ok "u") none none none none
      none ⟨[], []⟩ "T" "C" "507f1f77bcf86cd799439011"
      "bbbbbbbbbbbbbbbbbbbbbbbb" none (by decide) (by decide) rfl).2.1⟩

/-! ## Claims about Delete on an existing id -/

/-- Claim C4: on a Delete of an existing blog id, whatever the asset
store reports for the destroy call — success or any failure — the blog
record deletion is still performed, the operation still reports success
(so the asset-store failure is never its outcome), and a destroy failure
is merely logged. -/
theorem C4_delete_asset_failure_never_blocks
    (destroyOut : Except Err Unit) (st : Store) (id : String)
    (blog : BlogPost)
    (hid : isHex24 id = true) (hfind : findBlog st id = some blog) :
    (deleteOp none destroyOut none none st id).res = .deleted ∧
    (deleteOp none destroyOut none none st id).store.blogs
      = deleteFirst (fun b => b._id == id) st.blogs ∧
    (deleteOp none destroyOut none none st id).logs
      = (match destroyOut with | .error e => [e] | .ok _ => []) := by
  cases destroyOut <;> simp [deleteOp, hid, hfind]

/-- Claim C4 witness. -/
theorem C4_witness :
    isHex24 "cccccccccccccccccccccccc" = true ∧
    findBlog
        ⟨[⟨"cccccccccccccccccccccccc", "t0", "aaaaaaaaaaaaaaaaaaaaaaaa",
           "c0", "http://res.cloudinary.com/demo/image/upload/v1/pic.jpg"⟩],
         []⟩ "cccccccccccccccccccccccc"
      = some ⟨"cccccccccccccccccccccccc", "t0", "aaaaaaaaaaaaaaaaaaaaaaaa",
              "c0", "http://res.cloudinary.com/demo/image/upload/v1/pic.jpg"⟩ ∧
    (deleteOp none (.error "cloud down") none none
        ⟨[⟨"cccccccccccccccccccccccc", "t0", "aaaaaaaaaaaaaaaaaaaaaaaa",
           "c0", "http://res.cloudinary.com/demo/image/upload/v1/pic.jpg"⟩],
         []⟩ "cccccccccccccccccccccccc").res = .deleted :=
  ⟨by decide, rfl,
   (C4_delete_asset_failure_never_blocks (.error "cloud down")
      ⟨[⟨"cccccccccccccccccccccccc", "t0", "aaaaaaaaaaaaaaaaaaaaaaaa",
         "c0", "http://res.cloudinary.com/demo/image/upload/v1/pic.jpg"⟩],
       []⟩ "cccccccccccccccccccccccc"
      ⟨"cccccccccccccccccccccccc", "t0", "aaaaaaaaaaaaaaaaaaaaaaaa",
       "c0", "http://res.cloudinary.com/demo/image/upload/v1/pic.jpg"⟩
      (by decide) rfl).1⟩

/-- After removing the first record matching an id from a list whose ids
are pairwise distinct, no record with that id remains findable. -/
theorem find?_deleteFirst_eq_none (id : String) (l : List BlogPost)
    (hnd : (l.map BlogPost._id).Nodup) :
    (deleteFirst (fun b => b._id == id) l).find? (fun b => b._id == id)
      = none := by
  induction l with
  | nil => rfl
  | cons b bs ih =>
    simp only [List.map_cons, List.nodup_cons] at hnd
    by_cases hb : b._id = id
    · have hd : deleteFirst (fun b => b._id == id) (b :: bs) = bs := by
        simp [deleteFirst, hb]
      rw [hd, List.find?_eq_none]
      intro x hx
      simp only [beq_iff_eq]
      intro hxid
      exact hnd.1 (hb ▸ hxid ▸ List.mem_map_of_mem BlogPost._id hx)
    · have hd : deleteFirst (fun b => b._id == id) (b :: bs)
          = b :: deleteFirst (fun b => b._id == id) bs := by
        simp [deleteFirst, hb]
      rw [hd, List.find?_cons_of_neg _ (by simp [hb])]
      exact ih hnd.2

/-- Claim C7: a Delete call on an existing blog id that completes
successfully leaves the store with no findable record under that id
(given the store's unique-id invariant) and with no comment referencing
that id. -/
theorem C7_delete_removes_record_and_comments
    (findErr : Option Err) (destroyOut : Except Err Unit)
    (delBlogErr delCommentsErr : Option Err) (st : Store) (id : String)
    (hnd : (st.blogs.map BlogPost._id).Nodup)
    (hres : (deleteOp findErr destroyOut delBlogErr delCommentsErr st id).res
      = .deleted) :
    findBlog
        (deleteOp findErr destroyOut delBlogErr delCommentsErr st id).store id
      = none ∧
    ∀ c ∈ (deleteOp findErr destroyOut delBlogErr delCommentsErr
            st id).store.comments, (c.blog == id) = false := by
  cases hid : isHex24 id with
  | false => simp [deleteOp, hid] at hres
  | true =>
    cases findErr with
    | some e => simp [deleteOp, hid] at hres
    | none =>
      cases hf : findBlog st id with
      | none => simp [deleteOp, hid, hf] at hres
      | some blog =>
        cases delBlogErr with
        | some e => simp [deleteOp, hid, hf] at hres
        | none =>
          cases delCommentsErr with
          | some e => simp [deleteOp, hid, hf] at hres
          | none =>
            refine ⟨?_, ?_⟩
            · show findBlog _ id = none
              simp only [deleteOp, hid, hf, if_true]
              simpa [findBlog] using find?_deleteFirst_eq_none id st.blogs hnd
            · intro c hc
              simp only [deleteOp, hid, hf, if_true] at hc
              simp only [List.mem_filter] at hc
              simpa using hc.2

/-- Claim C7 witness: deleting a blog with three comments (two of them
referencing it) removes the record; hypotheses checked concretely. -/
theorem C7_witness :
    ([⟨"cccccccccccccccccccccccc", "t0", "aaaaaaaaaaaaaaaaaaaaaaaa",
       "c0", "http://cdn/v1/pic.jpg"⟩].map BlogPost._id).Nodup ∧
    (deleteOp none (.ok ()) none none
        ⟨[⟨"cccccccccccccccccccccccc", "t0", "aaaaaaaaaaaaaaaaaaaaaaaa",
           "c0", "http://cdn/v1/pic.jpg"⟩],
         [⟨"e1", "cccccccccccccccccccccccc"⟩,
          ⟨"e2", "cccccccccccccccccccccccc"⟩,
          ⟨"e3", "dddddddddddddddddddddddd"⟩]⟩
        "cccccccccccccccccccccccc").res = .deleted ∧
    findBlog
      (deleteOp none (.ok ()) none none
        ⟨[⟨"cccccccccccccccccccccccc", "t0", "aaaaaaaaaaaaaaaaaaaaaaaa",
           "c0", "http://cdn/v1/pic.jpg"⟩],
         [⟨"e1", "cccccccccccccccccccccccc"⟩,
          ⟨"e2", "cccccccccccccccccccccccc"⟩,
          ⟨"e3", "dddddddddddddddddddddddd"⟩]⟩
        "cccccccccccccccccccccccc").store "cccccccccccccccccccccccc" = none :=
  ⟨by decide, by decide,
   (C7_delete_removes_record_and_comments none (.ok ()) none none
      ⟨[⟨"cccccccccccccccccccccccc", "t0", "aaaaaaaaaaaaaaaaaaaaaaaa",
         "c0", "http://cdn/v1/pic.jpg"⟩],
       [⟨"e1", "cccccccccccccccccccccccc"⟩,
        ⟨"e2", "cccccccccccccccccccccccc"⟩,
        ⟨"e3", "dddddddddddddddddddddddd"⟩]⟩
      "cccccccccccccccccccccccc" (by decide) (by decide)).1⟩

/-! ## Claims about Update -/

/-- Claim C1: when an Update on an existing record supplies a new photo
(and the record carries an old asset), the orchestrator first issues the
destroy of the old asset and then the upload of the new one, in that
order; a destroy failure is only logged (the outcome is the same for
every destroy result); and if the new upload fails the whole update
aborts surfacing the upload error with the store unchanged — the record
still carries its old photoReference and no record replace happens. -/
theorem C1_update_new_photo_flow
    (destroyOut : Except Err Unit) (uploadOut : Except Err String)
    (updateErr : Option Err) (st : Store)
    (title content author blogId p : String) (blog : BlogPost)
    (hv : updateValid title content author blogId (some p) = true)
    (hfind : findBlog st blogId = some blog)
    (hold : (blog.photoPath != "") = true) :
    (update none destroyOut uploadOut updateErr st title content author
        blogId (some p)).calls
      = [.destroy (update_extractPublicId blog.photoPath), .upload p] ∧
    ((update none destroyOut uploadOut updateErr st title content author
        blogId (some p)).logs
      = match destroyOut with | .error de => [de] | .ok _ => []) ∧
    ∀ e, uploadOut = .error e →
      (update none destroyOut uploadOut updateErr st title content author
          blogId (some p)).res = .nextErr e ∧
      (update none destroyOut uploadOut updateErr st title content author
          blogId (some p)).store = st := by
  have hp : (p == "") = false := by
    have h2 := hv
    simp only [updateValid, Bool.and_eq_true] at h2
    simpa using h2.2
  cases uploadOut <;> cases destroyOut <;> cases updateErr <;>
    simp [update, dbReplace, hv, hfind, hp, hold]

/-- Claim C1 witness: concrete run in which the old-asset destroy fails
(and is swallowed) and the new upload fails, aborting the update. -/
theorem C1_witness :
    updateValid "T1" "C1" "aaaaaaaaaaaaaaaaaaaaaaaa"
        "cccccccccccccccccccccccc" (some "newphoto") = true ∧
    findBlog
        ⟨[⟨"cccccccccccccccccccccccc", "t0", "aaaaaaaaaaaaaaaaaaaaaaaa",
           "c0", "http://res.cloudinary.com/demo/image/upload/v1/oldpic.jpg"⟩],
         []⟩ "cccccccccccccccccccccccc"
      = some ⟨"cccccccccccccccccccccccc", "t0", "aaaaaaaaaaaaaaaaaaaaaaaa",
              "c0", "http://res.cloudinary.com/demo/image/upload/v1/oldpic.jpg"⟩ ∧
    (update none (.error "destroy down") (.error "upload down") none
        ⟨[⟨"cccccccccccccccccccccccc", "t0", "aaaaaaaaaaaaaaaaaaaaaaaa",
           "c0", "http://res.cloudinary.com/demo/image/upload/v1/oldpic.jpg"⟩],
         []⟩ "T1" "C1" "aaaaaaaaaaaaaaaaaaaaaaaa" "cccccccccccccccccccccccc"
        (some "newphoto")).calls
      = [.destroy "oldpic", .upload "newphoto"] ∧
    (update none (.error "destroy down") (.error "upload down") none
        ⟨[⟨"cccccccccccccccccccccccc", "t0", "aaaaaaaaaaaaaaaaaaaaaaaa",
           "c0", "http://res.cloudinary.com/demo/image/upload/v1/oldpic.jpg"⟩],
         []⟩ "T1" "C1" "aaaaaaaaaaaaaaaaaaaaaaaa" "cccccccccccccccccccccccc"
        (some "newphoto")).res = .nextErr "upload down" ∧
    (update none (.error "destroy down") (.error "upload down") none
        ⟨[⟨"cccccccccccccccccccccccc", "t0", "aaaaaaaaaaaaaaaaaaaaaaaa",
           "c0", "http://res.cloudinary.com/demo/image/upload/v1/oldpic.jpg"⟩],
         []⟩ "T1" "C1" "aaaaaaaaaaaaaaaaaaaaaaaa" "cccccccccccccccccccccccc"
        (some "newphoto")).store
      = ⟨[⟨"cccccccccccccccccccccccc", "t0", "aaaaaaaaaaaaaaaaaaaaaaaa",
           "c0", "http://res.cloudinary.com/demo/image/upload/v1/oldpic.jpg"⟩],
         []⟩ :=
  ⟨by decide, rfl,
   (C1_update_new_photo_flow (.error "destroy down") (.error "upload down")
      none
      ⟨[⟨"cccccccccccccccccccccccc", "t0", "aaaaaaaaaaaaaaaaaaaaaaaa",
         "c0", "http://res.cloudinary.com/demo/image/upload/v1/oldpic.jpg"⟩],
       []⟩ "T1" "C1" "aaaaaaaaaaaaaaaaaaaaaaaa" "cccccccccccccccccccccccc"
      "newphoto"
      ⟨"cccccccccccccccccccccccc", "t0", "aaaaaaaaaaaaaaaaaaaaaaaa",
       "c0", "http://res.cloudinary.com/demo/image/upload/v1/oldpic.jpg"⟩
      (by decide) rfl (by decide)).1,
   ((C1_update_new_photo_flow (.error "destroy down") (.error "upload down")
      none
      ⟨[⟨"cccccccccccccccccccccccc", "t0", "aaaaaaaaaaaaaaaaaaaaaaaa",
         "c0", "http://res.cloudinary.com/demo/image/upload/v1/oldpic.jpg"⟩],
       []⟩ "T1" "C1" "aaaaaaaaaaaaaaaaaaaaaaaa" "cccccccccccccccccccccccc"
      "newphoto"
      ⟨"cccccccccccccccccccccccc", "t0", "aaaaaaaaaaaaaaaaaaaaaaaa",
       "c0", "http://res.cloudinary.com/demo/image/upload/v1/oldpic.jpg"⟩
      (by decide) rfl (by decide)).2.2 "upload down" rfl).1,
   ((C1_update_new_photo_flow (.error "destroy down") (.error "upload down")
      none
      ⟨[⟨"cccccccccccccccccccccccc", "t0", "aaaaaaaaaaaaaaaaaaaaaaaa",
         "c0", "http://res.cloudinary.com/demo/image/upload/v1/oldpic.jpg"⟩],
       []⟩ "T1" "C1" "aaaaaaaaaaaaaaaaaaaaaaaa" "cccccccccccccccccccccccc"
      "newphoto"
      ⟨"cccccccccccccccccccccccc", "t0", "aaaaaaaaaaaaaaaaaaaaaaaa",
       "c0", "http://res.cloudinary.com/demo/image/upload/v1/oldpic.jpg"⟩
      (by decide) rfl (by decide)).2.2 "upload down" rfl).2⟩

/-- The record-replace step never touches the author field of any
record. -/
theorem updateFirst_map_author (p : BlogPost → Bool) (t c np : String)
    (l : List BlogPost) :
    (updateFirst p
        (fun b => { b with title := t, content := c, photoPath := np })
        l).map BlogPost.author
      = l.map BlogPost.author := by
  induction l with
  | nil => rfl
  | cons b bs ih =>
    by_cases hb : p b
    · simp [updateFirst, hb]
    · simp [updateFirst, hb, ih]

/-- When the replacement writes back the photoPath of the first matching
record, the photoPath column of the store is unchanged. -/
theorem updateFirst_map_photoPath (p : BlogPost → Bool) (t c : String)
    (l : List BlogPost) (blog : BlogPost) (hf : l.find? p = some blog) :
    (updateFirst p
        (fun b => { b with title := t, content := c,
                           photoPath := blog.photoPath })
        l).map BlogPost.photoPath
      = l.map BlogPost.photoPath := by
  induction l with
  | nil => simp at hf
  | cons b bs ih =>
    by_cases hb : p b
    · rw [List.find?_cons_of_pos _ hb] at hf
      have hbb : blog = b := (Option.some_inj.mp hf).symm
      subst hbb
      simp [updateFirst, hb]
    · rw [List.find?_cons_of_neg _ hb] at hf
      simp [updateFirst, hb, ih hf]

/-- Claim C2 counterexample: an Update without a photo that succeeds
leaves the author field untouched — the store still carries the old
author even though a different author was supplied, so "title, content,
and author fields are replaced" fails on the author field. -/
theorem C2_counterexample :
    (update none (.ok ()) (.ok "unused") none
        ⟨[⟨"cccccccccccccccccccccccc", "t0", "aaaaaaaaaaaaaaaaaaaaaaaa",
           "c0", "u0"⟩], []⟩
        "T1" "C1" "bbbbbbbbbbbbbbbbbbbbbbbb" "cccccccccccccccccccccccc"
        none).res = .updated ∧
    (update none (.ok ()) (.ok "unused") none
        ⟨[⟨"cccccccccccccccccccccccc", "t0", "aaaaaaaaaaaaaaaaaaaaaaaa",
           "c0", "u0"⟩], []⟩
        "T1" "C1" "bbbbbbbbbbbbbbbbbbbbbbbb" "cccccccccccccccccccccccc"
        none).store.blogs
      = [⟨"cccccccccccccccccccccccc", "T1", "aaaaaaaaaaaaaaaaaaaaaaaa",
          "C1", "u0"⟩] ∧
    ("aaaaaaaaaaaaaaaaaaaaaaaa" : String) ≠ "bbbbbbbbbbbbbbbbbbbbbbbb" :=
  ⟨by decide, by decide, by decide⟩

/-- Claim C2 (amended): an Update call that supplies no new photo on an
existing record leaves photoReference unchanged and replaces title and
content with the supplied values; the author field, although supplied
and validated, is NOT written by the record replace and stays as stored. -/
theorem C2_amended_update_without_photo
    (destroyOut : Except Err Unit) (uploadOut : Except Err String)
    (st : Store) (title content author blogId : String) (blog : BlogPost)
    (hv : updateValid title content author blogId none = true)
    (hfind : findBlog st blogId = some blog) :
    (update none destroyOut uploadOut none st title content author blogId
        none).res = .updated ∧
    (update none destroyOut uploadOut none st title content author blogId
        none).calls = [] ∧
    (update none destroyOut uploadOut none st title content author blogId
        none).store.blogs
      = updateFirst (fun b => b._id == blogId)
          (fun b => { b with title := title, content := content,
                             photoPath := blog.photoPath }) st.blogs ∧
    (update none destroyOut uploadOut none st title content author blogId
        none).store.blogs.map BlogPost.photoPath
      = st.blogs.map BlogPost.photoPath ∧
    (update none destroyOut uploadOut none st title content author blogId
        none).store.blogs.map BlogPost.author
      = st.blogs.map BlogPost.author := by
  have hstore : (update none destroyOut uploadOut none st title content
      author blogId none).store.blogs
      = updateFirst (fun b => b._id == blogId)
          (fun b => { b with title := title, content := content,
                             photoPath := blog.photoPath }) st.blogs := by
    simp [update, dbReplace, hv, hfind]
  refine ⟨by simp [update, dbReplace, hv, hfind],
          by simp [update, dbReplace, hv, hfind], hstore, ?_, ?_⟩
  · rw [hstore]
    exact updateFirst_map_photoPath (fun b => b._id == blogId) title content
      st.blogs blog hfind
  · rw [hstore]
    exact updateFirst_map_author (fun b => b._id == blogId) title content
      blog.photoPath st.blogs

/-- Claim C2 witness. -/
theorem C2_witness :
    updateValid "T1" "C1" "bbbbbbbbbbbbbbbbbbbbbbbb"
        "cccccccccccccccccccccccc" none = true ∧
    findBlog
        ⟨[⟨"cccccccccccccccccccccccc", "t0", "aaaaaaaaaaaaaaaaaaaaaaaa",
           "c0", "u0"⟩], []⟩ "cccccccccccccccccccccccc"
      = some ⟨"cccccccccccccccccccccccc", "t0", "aaaaaaaaaaaaaaaaaaaaaaaa",
              "c0", "u0"⟩ ∧
    (update none (.ok ()) (.ok "unused") none
        ⟨[⟨"cccccccccccccccccccccccc", "t0", "aaaaaaaaaaaaaaaaaaaaaaaa",
           "c0", "u0"⟩], []⟩
        "T1" "C1" "bbbbbbbbbbbbbbbbbbbbbbbb" "cccccccccccccccccccccccc"
        none).store.blogs.map BlogPost.photoPath = ["u0"] ∧
    (update none (.ok ()) (.ok "unused") none
        ⟨[⟨"cccccccccccccccccccccccc", "t0", "aaaaaaaaaaaaaaaaaaaaaaaa",
           "c0", "u0"⟩], []⟩
        "T1" "C1" "bbbbbbbbbbbbbbbbbbbbbbbb" "cccccccccccccccccccccccc"
        none).store.blogs.map BlogPost.author = ["aaaaaaaaaaaaaaaaaaaaaaaa"] :=
  ⟨by decide, rfl,
   (C2_amended_update_without_photo (.ok ()) (.ok "unused")
      ⟨[⟨"cccccccccccccccccccccccc", "t0", "aaaaaaaaaaaaaaaaaaaaaaaa",
         "c0", "u0"⟩], []⟩
      "T1" "C1" "bbbbbbbbbbbbbbbbbbbbbbbb" "cccccccccccccccccccccccc"
      ⟨"cccccccccccccccccccccccc", "t0", "aaaaaaaaaaaaaaaaaaaaaaaa",
       "c0", "u0"⟩ (by decide) rfl).2.2.2.1,
   (C2_amended_update_without_photo (.ok ()) (.ok "unused")
      ⟨[⟨"cccccccccccccccccccccccc", "t0", "aaaaaaaaaaaaaaaaaaaaaaaa",
         "c0", "u0"⟩], []⟩
      "T1" "C1" "bbbbbbbbbbbbbbbbbbbbbbbb" "cccccccccccccccccccccccc"
      ⟨"cccccccccccccccccccccccc", "t0", "aaaaaaaaaaaaaaaaaaaaaaaa",
       "c0", "u0"⟩ (by decide) rfl).2.2.2.2⟩
